import Mathlib

/-!
Verification of the crosstalk CLI chat client: the provider registry,
the streaming completion protocol, the chat session state, and the
`main` dispatch in `src/main.rs`.

The repository source under `src/` contains only `src/main.rs` (CLI
dispatch).  The modules it calls (`registry`, `chat`, `providers`,
`cli`, `config`, `color`) are not in `src/`; where a definition embeds
one of those, its doc comment starts `Modelled from the spec:` and the
definition follows the specification's words.
-/

/-- Message role, from the spec's data model: role ∈ \x7buser, assistant, system\x7d. -/
inductive Role
  | user
  | assistant
  | system
deriving DecidableEq, Repr

/-- A conversation message: role plus text content. -/
structure Message where
  role : Role
  content : String
deriving DecidableEq, Repr

/-- Ordered sequence of messages, insertion order significant. -/
abbrev Conversation := List Message

/-- Keybinding-triggered meta-actions of the chat session engine. -/
inductive MetaAction
  | submit
  | editLast
  | clearHistory
  | quit
  | openEditor
deriving DecidableEq, Repr

/-- Configuration-supplied mapping from input gesture to meta-action. -/
abbrev KeyBindings := List (String × MetaAction)

/-- Modelled from the spec: SessionConfig of the chat session engine
(module `chat` is not in `src/`): resolved model, interactive flag,
keybinding map, optional external-editor path.  Immutable for the
lifetime of one session. -/
structure SessionConfig where
  model : String
  interactive : Bool
  keybindings : KeyBindings
  editor : Option String
deriving DecidableEq, Repr

/-- Modelled from the spec: the mutable state of one chat session:
its immutable SessionConfig plus the conversation history. -/
structure SessionState where
  config : SessionConfig
  conversation : Conversation
deriving DecidableEq, Repr

/-- Modelled from the spec: completing one turn appends a user message
and the resulting assistant message to the conversation. -/
def SessionState.appendTurn (s : SessionState) (userText assistantText : String) :
    SessionState :=
  { s with conversation :=
      s.conversation ++ [⟨Role.user, userText⟩, ⟨Role.assistant, assistantText⟩] }

/-- Append a list of user/assistant turn pairs in order. -/
def SessionState.appendTurns (s : SessionState) : List (String × String) → SessionState
  | [] => s
  | (u, a) :: rest => (s.appendTurn u a).appendTurns rest

/-- Modelled from the spec: the clear-history meta-action discards all
Conversation entries but preserves SessionConfig. -/
def SessionState.clearHistory (s : SessionState) : SessionState :=
  { s with conversation := [] }

/-- Modelled from the spec: ProviderDescriptor (module `providers` is
not in `src/`): identifier, display name, ordered set of model
identifiers.  The completion entry point handle is represented
separately by the stream functions below. -/
structure ProviderDescriptor where
  identifier : String
  displayName : String
  models : List String
deriving DecidableEq, Repr

/-- Modelled from the spec: the Registry is a mapping from provider
identifier to descriptor, kept in registration order (module
`registry` is not in `src/`). -/
structure Registry where
  providers : List ProviderDescriptor
deriving DecidableEq, Repr

/-- Registry lookup by model identifier: first registered provider
whose model set contains the identifier (first-registered-wins). -/
def Registry.findModel (r : Registry) (m : String) : Option ProviderDescriptor :=
  r.providers.find? (fun p => p.models.contains m)

/-- All known model identifiers, in registration order; used for the
error context of UnknownModelError. -/
def Registry.allModels (r : Registry) : List String :=
  (r.providers.map (fun p => p.models)).flatten

/-- Resolution failure: UnknownModelError names the requested string
and lists all known models. -/
inductive ResolveError
  | unknownModelError (requested : String) (known : List String)
deriving DecidableEq, Repr

/-- Resolve a single model identifier string against the registry:
search all providers for a matching model id; fail with
UnknownModelError when none matches. -/
def Registry.resolveModelId (r : Registry) (m : String) :
    Except ResolveError (ProviderDescriptor × String) :=
  match r.findModel m with
  | some p => Except.ok (p, m)
  | none => Except.error (ResolveError.unknownModelError m r.allModels)

/-- Modelled from the spec: `resolve(model, default)` (module
`registry` is not in `src/`).  Resolution order: explicit argument >
configured default > hard failure with UnknownModelError; no provider
is silently guessed. -/
def Registry.resolve (r : Registry) (model : Option String) (dflt : Option String) :
    Except ResolveError (ProviderDescriptor × String) :=
  match model with
  | some m => r.resolveModelId m
  | none =>
    match dflt with
    | some d => r.resolveModelId d
    | none => Except.error (ResolveError.unknownModelError (String.mk []) r.allModels)

/-- Does a provider pass the optional provider filter of a listing? -/
def providerMatches (f : Option String) (p : ProviderDescriptor) : Bool :=
  match f with
  | none => true
  | some name => p.identifier == name

/-- Enumerate (provider identifier, model identifier) pairs of a list
of descriptors, in registration order. -/
def listModels : List ProviderDescriptor → List (String × String)
  | [] => []
  | p :: ps => p.models.map (fun m => (p.identifier, m)) ++ listModels ps

/-- Modelled from the spec: `list(provider_filter)` returns the
(provider identifier, model identifier) pairs, pure, in deterministic
registration order (module `registry` is not in `src/`). -/
def Registry.list (r : Registry) (f : Option String) : List (String × String) :=
  listModels (r.providers.filter (providerMatches f))

/-- Does a listed pair pass the optional provider filter? -/
def pairMatches (f : Option String) (pr : String × String) : Bool :=
  match f with
  | none => true
  | some name => pr.1 == name

/-- Terminal failure classification of the streaming completion
protocol. -/
inductive StreamError
  | authError
  | rateLimited (retryAfter : Option Nat)
  | invalidRequest
  | transportError
  | providerError (message : String)
deriving DecidableEq, Repr

/-- Modelled from the spec: StreamIncrement, a unit of an in-flight
response: a text fragment, a terminal success carrying the fully
assembled message, a terminal failure, or a Cancelled terminal. -/
inductive StreamIncrement
  | fragment (text : String)
  | done (message : String)
  | failed (e : StreamError)
  | cancelled
deriving DecidableEq, Repr

/-- Terminal outcome observed by the session engine after consuming
one completion stream. -/
inductive StreamOutcome
  | success (assembled : String)
  | failed (e : StreamError)
  | cancelled
  | exhausted
deriving DecidableEq, Repr

/-- Modelled from the spec: the Rendering state of the session engine
consumes the increment sequence, writing each text fragment to output
as it arrives, and stops at the first terminal value.  Returns the
rendered fragments in delivery order and the terminal outcome. -/
def renderStream : List StreamIncrement → List String × StreamOutcome
  | [] => ([], StreamOutcome.exhausted)
  | StreamIncrement.fragment t :: rest =>
    let r := renderStream rest
    (t :: r.1, r.2)
  | StreamIncrement.done m :: _ => ([], StreamOutcome.success m)
  | StreamIncrement.failed e :: _ => ([], StreamOutcome.failed e)
  | StreamIncrement.cancelled :: _ => ([], StreamOutcome.cancelled)

/-- Modelled from the spec: a provider fulfilling the streaming
completion protocol on a successful completion delivers its text
fragments in order and terminates with a success terminal carrying
the fully assembled message (the concatenation of the fragments). -/
def producedSuccessStream (frags : List String) : List StreamIncrement :=
  frags.map StreamIncrement.fragment ++ [StreamIncrement.done (String.join frags)]

/-- Modelled from the spec: a provider observing the cancellation
token after k fragments have been delivered terminates promptly with
a Cancelled terminal value; already-delivered fragments are not
retracted. -/
def completeWithCancel (frags : List String) (k : Nat) : List StreamIncrement :=
  (frags.take k).map StreamIncrement.fragment ++ [StreamIncrement.cancelled]

/-- Modelled from the spec: after a terminal outcome the engine
appends the assembled text as an assistant Message on success and
appends nothing on a Cancelled, failed or exhausted terminal. -/
def applyOutcome (conv : Conversation) : StreamOutcome → Conversation
  | StreamOutcome.success m => conv ++ [⟨Role.assistant, m⟩]
  | _ => conv

/-- RequestedColorMode from `src/main.rs`: Auto, On, Off. -/
inductive RequestedColorMode
  | auto
  | on
  | off
deriving DecidableEq, Repr

/-- Shells supported by the clap_complete generator flag. -/
inductive Shell
  | bash
  | elvish
  | fish
  | powershell
  | zsh
deriving DecidableEq, Repr

/-- Lowercase display name of a shell, as printed by `main`. -/
def shellName : Shell → String
  | Shell.bash => String.mk ['b', 'a', 's', 'h']
  | Shell.elvish => String.mk ['e', 'l', 'v', 'i', 's', 'h']
  | Shell.fish => String.mk ['f', 'i', 's', 'h']
  | Shell.powershell => String.mk ['p', 'o', 'w', 'e', 'r', 's', 'h', 'e', 'l', 'l']
  | Shell.zsh => String.mk ['z', 's', 'h']

/-- ChatOpts from `src/main.rs`: optional model override, interactive
flag, optional initial prompt. -/
structure ChatOpts where
  model : Option String
  interactive : Bool
  prompt : Option String
deriving DecidableEq, Repr

/-- ChatOpts::default(): model None, interactive false, prompt None
(the Rust derive(Default) defaults of each field). -/
def ChatOpts.default : ChatOpts :=
  { model := none, interactive := false, prompt := none }

/-- ListingFormat from `src/main.rs`: Table (the default), Json,
HeaderlessTable. -/
inductive ListingFormat
  | table
  | json
  | headerlessTable
deriving DecidableEq, Repr

/-- ListModelArgs from `src/main.rs`: optional provider filter. -/
structure ListModelArgs where
  provider : Option String
deriving DecidableEq, Repr

/-- ListObject from `src/main.rs`: list models or list providers. -/
inductive ListObject
  | models (args : ListModelArgs)
  | providers
deriving DecidableEq, Repr

/-- ListArgs from `src/main.rs`: output format plus listed object. -/
structure ListArgs where
  format : ListingFormat
  object : ListObject
deriving DecidableEq, Repr

/-- Commands from `src/main.rs`: the Chat and List subcommands. -/
inductive Commands
  | chat (args : ChatOpts)
  | list (args : ListArgs)
deriving DecidableEq, Repr

/-- Opts from `src/main.rs`: color mode, optional config path,
optional subcommand, optional shell-completion generator flag. -/
structure Opts where
  color : RequestedColorMode
  config : Option String
  command : Option Commands
  generator : Option Shell
deriving DecidableEq, Repr

/-- Modelled from the spec: the validated configuration struct the
configuration loader supplies (module `config` is not in `src/`):
editor path, keybinding map, default model identifier, and the
enabled providers with their descriptors. -/
structure Config where
  editor : Option String
  keybindings : KeyBindings
  default_model : Option String
  providers : List ProviderDescriptor
deriving DecidableEq, Repr

/-- Modelled from the spec: `populated_registry` constructs one
ProviderDescriptor per enabled provider from the configuration and
returns the assembled Registry (module `registry` is not in `src/`;
the credential-validation failure path aborts before `main`
continues and is elided). -/
def populatedRegistry (c : Config) : Registry :=
  { providers := c.providers }

/-- Modelled from the spec: ColorMode::resolve_auto (module `color`
is not in `src/`): On and Off are explicit; Auto resolves from
terminal detection.  Represented as a Bool (color on). -/
def resolveAuto (tty : Bool) : RequestedColorMode → Bool
  | RequestedColorMode.auto => tty
  | RequestedColorMode.on => true
  | RequestedColorMode.off => false

/-- Results of the fallible filesystem calls in the generator branch
of `main`, plus terminal detection, supplied by the environment. -/
structure Env where
  tty : Bool
  dirOk : Bool
  genOk : Bool
deriving DecidableEq, Repr

/-- The success message `main` prints after generating completions:
"Generated completions for \x7bgenerator\x7d in \x7bout_dir\x7d". -/
def completionsMessage (g : Shell) : String :=
  String.mk ['G', 'e', 'n', 'e', 'r', 'a', 't', 'e', 'd', ' '] ++
    String.mk ['c', 'o', 'm', 'p', 'l', 'e', 't', 'i', 'o', 'n', 's', ' '] ++
    String.mk ['f', 'o', 'r', ' '] ++ shellName g ++
    String.mk [' ', 'i', 'n', ' '] ++
    String.mk ['t', 'a', 'r', 'g', 'e', 't', '/', 'c', 'o', 'm', 'p', 'l', 'e', 't',
      'i', 'o', 'n', 's']

/-- Observable steps of one run of `main`, in program order. -/
inductive Event
  | configureColor (colorActive : Bool)
  | readConfig (path : Option String)
  | populateRegistry
  | createCompletionsDir (ok : Bool)
  | generateCompletions (ok : Bool)
  | printLine (s : String)
  | dispatchChat (editor : Option String) (keys : KeyBindings) (dflt : Option String)
      (reg : Registry) (args : ChatOpts)
  | dispatchList (colorOn : Bool) (reg : Registry) (args : ListArgs)
deriving DecidableEq, Repr

/-- Is an event the registry population step? -/
def Event.isPopulate : Event → Bool
  | Event.populateRegistry => true
  | _ => false

/-- Is an event a subcommand dispatch? -/
def Event.isDispatch : Event → Bool
  | Event.dispatchChat _ _ _ _ _ => true
  | Event.dispatchList _ _ _ => true
  | _ => false

/-- The registry value an event hands to a consumer, when any. -/
def Event.registryOf : Event → Option Registry
  | Event.dispatchChat _ _ _ reg _ => some reg
  | Event.dispatchList _ reg _ => some reg
  | _ => none

/-- Shallow embedding of `main` from `src/main.rs`, lines 126-172:
resolve and configure color, read the configuration, populate the
registry, take the editor path from the configuration; if the
generator flag is set, create the completions directory and generate
completions (both results discarded), print the success message and
return; otherwise dispatch the Chat or List subcommand, or Chat with
default ChatOpts when no subcommand is given.  The chat session
engine and the listing collaborator are the parameters `chatCmd` and
`listCmd` (their modules are not in `src/`); per the spec the chat
entry point's return value is the process exit status, and a plain
return from `main` exits with status 0.  Returns the event trace and
the exit status. -/
def mainRun (chatCmd : Option String → KeyBindings → Option String → Registry →
      ChatOpts → Nat)
    (listCmd : Bool → Registry → ListArgs → Nat)
    (env : Env) (cli : Opts) (config : Config) : List Event × Nat :=
  let color := resolveAuto env.tty cli.color
  let registry := populatedRegistry config
  let editor := config.editor
  let pre : List Event :=
    [Event.configureColor color, Event.readConfig cli.config, Event.populateRegistry]
  match cli.generator with
  | some g =>
    (pre ++ [Event.createCompletionsDir env.dirOk, Event.generateCompletions env.genOk,
      Event.printLine (completionsMessage g)], 0)
  | none =>
    match cli.command with
    | some (Commands.chat args) =>
      (pre ++ [Event.dispatchChat editor config.keybindings config.default_model
        registry args],
       chatCmd editor config.keybindings config.default_model registry args)
    | some (Commands.list args) =>
      (pre ++ [Event.dispatchList color registry args], listCmd color registry args)
    | none =>
      (pre ++ [Event.dispatchChat editor config.keybindings config.default_model
        registry ChatOpts.default],
       chatCmd editor config.keybindings config.default_model registry ChatOpts.default)

/-- Sample model identifier m1, for witnesses. -/
def m1s : String := String.mk ['m', '1']

/-- Sample model identifier m2, for witnesses. -/
def m2s : String := String.mk ['m', '2']

/-- Sample unknown model identifier m3, for witnesses. -/
def m3s : String := String.mk ['m', '3']

/-- Sample provider A with one model, for witnesses. -/
def descA : ProviderDescriptor :=
  { identifier := String.mk ['A'], displayName := String.mk ['A'],
    models := [m1s] }

/-- Sample provider B with one model, for witnesses. -/
def descB : ProviderDescriptor :=
  { identifier := String.mk ['B'], displayName := String.mk ['B'],
    models := [m2s] }

/-- Sample registry with providers A and B, for witnesses. -/
def regAB : Registry :=
  { providers := [descA, descB] }

/-- Sample configuration, for witnesses. -/
def cfg0 : Config :=
  { editor := none, keybindings := [], default_model := none,
    providers := [descA, descB] }

/-- Sample environment, for witnesses. -/
def env0 : Env :=
  { tty := true, dirOk := true, genOk := true }

/-- Sample chat session engine stub returning exit status 0, for
witnesses. -/
def chat0 : Option String → KeyBindings → Option String → Registry → ChatOpts → Nat :=
  fun _ _ _ _ _ => 0

/-- Sample listing collaborator stub returning exit status 0, for
witnesses. -/
def list0 : Bool → Registry → ListArgs → Nat :=
  fun _ _ _ => 0

/-- Scanning a trace from the start: does a registry population event
occur strictly before any subcommand dispatch event? -/
def populateBeforeDispatch : List Event → Bool
  | [] => true
  | e :: rest =>
    if e.isDispatch then false
    else if e.isPopulate then true
    else populateBeforeDispatch rest

/-- Sample chat options with an explicit model, for witnesses. -/
def chatOptsW : ChatOpts :=
  { model := some m1s, interactive := true, prompt := none }

/-- Sample command line invoking the chat subcommand, for witnesses. -/
def cliChat : Opts :=
  { color := RequestedColorMode.auto, config := none,
    command := some (Commands.chat chatOptsW), generator := none }

/-- Sample command line with no subcommand, for witnesses. -/
def cliNone : Opts :=
  { color := RequestedColorMode.auto, config := none,
    command := none, generator := none }

/-- Sample command line with the shell-completion generator flag, for
witnesses. -/
def cliGen : Opts :=
  { color := RequestedColorMode.auto, config := none,
    command := none, generator := some Shell.bash }

/-- Sample environment in which both filesystem calls of the
generator branch fail, for witnesses. -/
def envFail : Env :=
  { tty := true, dirOk := false, genOk := false }

/-- When filtering a list leaves the single element p, the first
element satisfying the predicate is p. -/
theorem find?_of_filter_singleton {α : Type} (pred : α → Bool) (p : α) :
    ∀ l : List α, l.filter pred = [p] → l.find? pred = some p := by
  intro l
  induction l with
  | nil => intro h; simp [List.filter] at h
  | cons a t ih =>
    intro h
    by_cases ha : pred a = true
    · rw [List.filter_cons_of_pos ha] at h
      rw [List.cons.injEq] at h
      rw [List.find?_cons_of_pos _ ha, h.1]
    · rw [List.filter_cons_of_neg (by simpa using ha)] at h
      rw [List.find?_cons_of_neg _ (by simpa using ha)]
      exact ih h

/-- A model id present in no provider of the registry has no
findModel result. -/
theorem findModel_eq_none (r : Registry) (m : String)
    (h : ∀ q ∈ r.providers, m ∉ q.models) : r.findModel m = none := by
  unfold Registry.findModel
  rw [List.find?_eq_none]
  intro q hq
  simpa using h q hq

/-- A successful resolveModelId returns the requested id together
with a registered provider whose model set contains it. -/
theorem resolveModelId_ok (r : Registry) (x : String) (p : ProviderDescriptor)
    (mid : String) (h : r.resolveModelId x = Except.ok (p, mid)) :
    x = mid ∧ p ∈ r.providers ∧ mid ∈ p.models := by
  unfold Registry.resolveModelId at h
  cases hf : r.findModel x with
  | some q =>
    rw [hf] at h
    simp only [Except.ok.injEq, Prod.mk.injEq] at h
    obtain ⟨hq, hx⟩ := h
    subst hq
    subst hx
    refine ⟨rfl, List.mem_of_find?_eq_some hf, ?_⟩
    have hc := List.find?_some hf
    simpa using hc
  | none =>
    rw [hf] at h
    cases h

/-- C1: in a populated registry, resolving a model identifier present
in exactly one provider's model set (the filter of providers serving
it is the singleton [p]) returns that provider's descriptor with that
identifier, and resolving an identifier present in no provider's
model set fails with UnknownModelError naming it. -/
theorem resolve_unique_or_unknown (r : Registry) (m : String)
    (p : ProviderDescriptor) (dflt : Option String) :
    (r.providers.filter (fun q => q.models.contains m) = [p] →
      r.resolve (some m) dflt = Except.ok (p, m)) ∧
    ((∀ q ∈ r.providers, m ∉ q.models) →
      r.resolve (some m) dflt =
        Except.error (ResolveError.unknownModelError m r.allModels)) := by
  constructor
  · intro h
    have hf : r.findModel m = some p := by
      unfold Registry.findModel
      exact find?_of_filter_singleton (fun q => q.models.contains m) p r.providers h
    simp [Registry.resolve, Registry.resolveModelId, hf]
  · intro h
    have hf := findModel_eq_none r m h
    simp [Registry.resolve, Registry.resolveModelId, hf]

/-- C1 witness: in the registry \x7bA: [m1], B: [m2]\x7d, resolving m2
with no default returns (B, m2), and resolving the unknown m3 fails
with UnknownModelError. -/
theorem resolve_unique_or_unknown_w :
    regAB.resolve (some m2s) none = Except.ok (descB, m2s) ∧
    regAB.resolve (some m3s) none =
      Except.error (ResolveError.unknownModelError m3s regAB.allModels) :=
  ⟨(resolve_unique_or_unknown regAB m2s descB none).1 (by decide),
   (resolve_unique_or_unknown regAB m3s descB none).2 (by decide)⟩

/-- Appending turn pairs never changes the session configuration. -/
theorem appendTurns_config (pairs : List (String × String)) :
    ∀ s : SessionState, (s.appendTurns pairs).config = s.config := by
  induction pairs with
  | nil => intro s; rfl
  | cons pa rest ih =>
    intro s
    obtain ⟨u, a⟩ := pa
    show ((s.appendTurn u a).appendTurns rest).config = s.config
    rw [ih (s.appendTurn u a)]
    rfl

/-- Rendering a stream that starts with mapped fragments delivers
those fragments first and then behaves as on the rest. -/
theorem renderStream_map_fragment_append (fs : List String)
    (rest : List StreamIncrement) :
    renderStream (fs.map StreamIncrement.fragment ++ rest) =
      (fs ++ (renderStream rest).1, (renderStream rest).2) := by
  induction fs with
  | nil => simp [renderStream]
  | cons a t ih => simp [renderStream, ih]

/-- C2: an explicit model argument takes precedence over the
configured default (the default does not influence the result), the
default is consulted exactly when no explicit model is given, the
call with neither fails with UnknownModelError rather than guessing,
and any successful resolution returns a model id that was either the
explicit argument or (absent one) the configured default, served by a
registered provider. -/
theorem resolve_precedence (r : Registry) (m : String) (dflt : Option String)
    (mo : Option String) (p : ProviderDescriptor) (mid : String) :
    (r.resolve (some m) dflt = r.resolve (some m) none) ∧
    (r.resolve none (some m) = r.resolve (some m) none) ∧
    (r.resolve none none =
      Except.error (ResolveError.unknownModelError (String.mk []) r.allModels)) ∧
    (r.resolve mo dflt = Except.ok (p, mid) →
      (mo = some mid ∨ (mo = none ∧ dflt = some mid)) ∧
        p ∈ r.providers ∧ mid ∈ p.models) := by
  refine ⟨rfl, rfl, rfl, ?_⟩
  intro h
  cases mo with
  | some x =>
    obtain ⟨hx, hmem, hmod⟩ := resolveModelId_ok r x p mid h
    exact ⟨Or.inl (by rw [hx]), hmem, hmod⟩
  | none =>
    cases dflt with
    | some d =>
      obtain ⟨hx, hmem, hmod⟩ := resolveModelId_ok r d p mid h
      exact ⟨Or.inr ⟨rfl, by rw [hx]⟩, hmem, hmod⟩
    | none =>
      cases h

/-- C2 witness: with registry \x7bA: [m1], B: [m2]\x7d, resolving m1
explicitly with default m2 ignores the default, the default is used
when no explicit model is given, and the successful resolution of m1
with default m2 picked the explicitly requested id from registered
provider A. -/
theorem resolve_precedence_w :
    regAB.resolve (some m1s) (some m2s) = regAB.resolve (some m1s) none ∧
    regAB.resolve none (some m1s) = regAB.resolve (some m1s) none ∧
    ((some m1s = some m1s ∨
        ((some m1s : Option String) = none ∧ (some m2s : Option String) = some m1s)) ∧
      descA ∈ regAB.providers ∧ m1s ∈ descA.models) :=
  ⟨(resolve_precedence regAB m1s (some m2s) (some m1s) descA m1s).1,
   (resolve_precedence regAB m1s (some m2s) (some m1s) descA m1s).2.1,
   (resolve_precedence regAB m1s (some m2s) (some m1s) descA m1s).2.2.2 (by rfl)⟩

/-- Membership in the model listing of a descriptor list. -/
theorem mem_listModels (l : List ProviderDescriptor) (pid m : String) :
    (pid, m) ∈ listModels l ↔
      ∃ p, p ∈ l ∧ p.identifier = pid ∧ m ∈ p.models := by
  induction l with
  | nil => simp [listModels]
  | cons a t ih =>
    simp only [listModels, List.mem_append, List.mem_map, ih, List.mem_cons,
      Prod.mk.injEq]
    aesop

/-- Filtering providers before listing equals listing everything and
filtering the pairs. -/
theorem listModels_filter (f : Option String) (l : List ProviderDescriptor) :
    listModels (l.filter (providerMatches f)) =
      (listModels l).filter (pairMatches f) := by
  induction l with
  | nil => rfl
  | cons a t ih =>
    by_cases hm : providerMatches f a = true
    · rw [List.filter_cons_of_pos hm]
      simp only [listModels, List.filter_append, ih]
      congr 1
      rw [eq_comm, List.filter_eq_self]
      intro pr hpr
      rcases List.mem_map.mp hpr with ⟨x, hx, rfl⟩
      cases f with
      | none => rfl
      | some n => simpa [pairMatches] using (by simpa [providerMatches] using hm)
    · have hker : ∀ pr ∈ a.models.map (fun x => (a.identifier, x)),
          ¬ pairMatches f pr = true := by
        intro pr hpr
        rcases List.mem_map.mp hpr with ⟨x, hx, rfl⟩
        cases f with
        | none => exact absurd rfl hm
        | some n => simpa [pairMatches] using (by simpa [providerMatches] using hm)
      rw [List.filter_cons_of_neg (by simpa using hm)]
      simp only [listModels, List.filter_append]
      rw [List.filter_eq_nil_iff.mpr hker, List.nil_append]
      exact ih

/-- C5: the listing operation takes an optional provider filter and
one of exactly three output shapes (table, JSON, headerless table);
it is a pure function of the registry whose result enumerates the
(provider identifier, model identifier) pairs in registration order:
the head provider's models come first, filtering by provider is
filtering the full registration-order listing, and the listed pairs
are exactly the registered ones passing the filter. -/
theorem list_pure_ordered (r : Registry) (f : Option String)
    (fmt : ListingFormat) (pid m : String) (p : ProviderDescriptor)
    (ps : List ProviderDescriptor) :
    (fmt = ListingFormat.table ∨ fmt = ListingFormat.json ∨
      fmt = ListingFormat.headerlessTable) ∧
    (Registry.list ⟨p :: ps⟩ f =
      (if providerMatches f p then p.models.map (fun x => (p.identifier, x))
        else []) ++ Registry.list ⟨ps⟩ f) ∧
    (r.list f = (r.list none).filter (pairMatches f)) ∧
    ((pid, m) ∈ r.list f ↔
      ∃ q, q ∈ r.providers ∧ q.identifier = pid ∧ m ∈ q.models ∧
        providerMatches f q = true) := by
  refine ⟨?_, ?_, ?_, ?_⟩
  · cases fmt
    · exact Or.inl rfl
    · exact Or.inr (Or.inl rfl)
    · exact Or.inr (Or.inr rfl)
  · unfold Registry.list
    by_cases hm : providerMatches f p = true
    · rw [List.filter_cons_of_pos hm, if_pos hm]
      simp [listModels]
    · rw [List.filter_cons_of_neg (by simpa using hm), if_neg hm]
      simp
  · unfold Registry.list
    have hall : r.providers.filter (providerMatches none) = r.providers := by
      rw [List.filter_eq_self]
      intro q hq
      rfl
    rw [hall]
    exact listModels_filter f r.providers
  · unfold Registry.list
    rw [mem_listModels]
    constructor
    · rintro ⟨q, hq, hid, hmem⟩
      rcases List.mem_filter.mp hq with ⟨hq1, hq2⟩
      exact ⟨q, hq1, hid, hmem, hq2⟩
    · rintro ⟨q, hq, hid, hmem, hf⟩
      exact ⟨q, List.mem_filter.mpr ⟨hq, hf⟩, hid, hmem⟩

/-- C5 witness: in the registry \x7bA: [m1], B: [m2]\x7d the unfiltered
listing is [(A, m1), (B, m2)] in registration order, the listing
filtered to provider B is the filtered full listing, and (B, m2) is
listed for filter B. -/
theorem list_pure_ordered_w :
    regAB.list none = [(descA.identifier, m1s), (descB.identifier, m2s)] ∧
    regAB.list (some descB.identifier) =
      (regAB.list none).filter (pairMatches (some descB.identifier)) ∧
    ((descB.identifier, m2s) ∈ regAB.list (some descB.identifier) ↔
      ∃ q, q ∈ regAB.providers ∧ q.identifier = descB.identifier ∧
        m2s ∈ q.models ∧ providerMatches (some descB.identifier) q = true) :=
  ⟨by decide,
   (list_pure_ordered regAB (some descB.identifier) ListingFormat.table
      descB.identifier m2s descA []).2.2.1,
   (list_pure_ordered regAB (some descB.identifier) ListingFormat.table
      descB.identifier m2s descA []).2.2.2⟩

/-- C6: appending any number of user/assistant turn pairs to any
session state and then performing the clear-history meta-action
yields an empty Conversation while the SessionConfig (every field) is
unchanged. -/
theorem clear_history_frame (s : SessionState) (pairs : List (String × String)) :
    ((s.appendTurns pairs).clearHistory).conversation = [] ∧
    ((s.appendTurns pairs).clearHistory).config = s.config := by
  refine ⟨rfl, ?_⟩
  show (s.appendTurns pairs).config = s.config
  exact appendTurns_config pairs s

/-- C7: for a successful completion stream, the assembled final
message carried by the success terminal equals the concatenation, in
delivery order, of all non-terminal text fragments the renderer
delivered. -/
theorem assembled_eq_concat (frags : List String) :
    renderStream (producedSuccessStream frags) =
      (frags, StreamOutcome.success (String.join frags)) := by
  unfold producedSuccessStream
  rw [renderStream_map_fragment_append]
  simp [renderStream]

/-- C8: cancelling an in-flight completion after k fragments have
been delivered leaves exactly those k fragments as rendered output,
terminates the stream with the Cancelled terminal value, and appends
no assistant Message to the conversation. -/
theorem cancel_preserves_fragments (frags : List String) (k : Nat)
    (conv : Conversation) (hk : k ≤ frags.length) :
    (renderStream (completeWithCancel frags k)).1 = frags.take k ∧
    ((renderStream (completeWithCancel frags k)).1).length = k ∧
    (renderStream (completeWithCancel frags k)).2 = StreamOutcome.cancelled ∧
    applyOutcome conv (renderStream (completeWithCancel frags k)).2 = conv := by
  have h1 : renderStream (completeWithCancel frags k) =
      (frags.take k, StreamOutcome.cancelled) := by
    unfold completeWithCancel
    rw [renderStream_map_fragment_append]
    simp [renderStream]
  refine ⟨by rw [h1], ?_, by rw [h1], by rw [h1]; rfl⟩
  rw [h1]
  simp [List.length_take, Nat.min_eq_left hk]

/-- C8 witness: a stream of three fragments cancelled after two keeps
exactly those two fragments, ends Cancelled, and leaves the empty
conversation without an assistant message. -/
theorem cancel_preserves_fragments_w :
    (2 : Nat) ≤ [m1s, m2s, m3s].length ∧
    ((renderStream (completeWithCancel [m1s, m2s, m3s] 2)).1 =
        [m1s, m2s, m3s].take 2 ∧
      ((renderStream (completeWithCancel [m1s, m2s, m3s] 2)).1).length = 2 ∧
      (renderStream (completeWithCancel [m1s, m2s, m3s] 2)).2 =
        StreamOutcome.cancelled ∧
      applyOutcome [] (renderStream (completeWithCancel [m1s, m2s, m3s] 2)).2 = []) :=
  ⟨by decide, cancel_preserves_fragments [m1s, m2s, m3s] 2 [] (by decide)⟩

/-- C3: with the generator flag absent and an explicit chat
subcommand, main invokes the chat session engine entry point with
exactly (optional editor path, keybinding map, optional default
model, the populated Registry, and the chat-options record of
optional model override, interactive flag and optional initial
prompt), and the value it returns is the process exit status. -/
theorem chat_dispatch_exact
    (chatCmd : Option String → KeyBindings → Option String → Registry →
      ChatOpts → Nat)
    (listCmd : Bool → Registry → ListArgs → Nat)
    (env : Env) (cli : Opts) (config : Config) (args : ChatOpts)
    (hg : cli.generator = none) (hc : cli.command = some (Commands.chat args)) :
    mainRun chatCmd listCmd env cli config =
      ([Event.configureColor (resolveAuto env.tty cli.color),
        Event.readConfig cli.config, Event.populateRegistry,
        Event.dispatchChat config.editor config.keybindings config.default_model
          (populatedRegistry config) args],
       chatCmd config.editor config.keybindings config.default_model
         (populatedRegistry config) args) := by
  simp [mainRun, hg, hc]

/-- C3 witness: a concrete chat invocation dispatches to the engine
with exactly the configured editor, keybindings, default model,
registry and chat options, and its return is the exit status. -/
theorem chat_dispatch_exact_w :
    mainRun chat0 list0 env0 cliChat cfg0 =
      ([Event.configureColor (resolveAuto env0.tty cliChat.color),
        Event.readConfig cliChat.config, Event.populateRegistry,
        Event.dispatchChat cfg0.editor cfg0.keybindings cfg0.default_model
          (populatedRegistry cfg0) chatOptsW],
       chat0 cfg0.editor cfg0.keybindings cfg0.default_model
         (populatedRegistry cfg0) chatOptsW) :=
  chat_dispatch_exact chat0 list0 env0 cliChat cfg0 chatOptsW rfl rfl

/-- C4: in every run of main, the registry population step occurs
exactly once, it occurs strictly before any subcommand dispatch, and
every consumer an event hands a registry to receives the same value,
the registry populated from the loaded configuration. -/
theorem registry_populated_once
    (chatCmd : Option String → KeyBindings → Option String → Registry →
      ChatOpts → Nat)
    (listCmd : Bool → Registry → ListArgs → Nat)
    (env : Env) (cli : Opts) (config : Config) :
    ((mainRun chatCmd listCmd env cli config).1.countP Event.isPopulate = 1) ∧
    (populateBeforeDispatch (mainRun chatCmd listCmd env cli config).1 = true) ∧
    (∀ e ∈ (mainRun chatCmd listCmd env cli config).1,
      e.registryOf = none ∨ e.registryOf = some (populatedRegistry config)) := by
  rcases cli with ⟨color, cfgPath, cmd, gen⟩
  cases gen with
  | some g =>
    refine ⟨?_, ?_, ?_⟩ <;>
      simp [mainRun, Event.isPopulate, Event.isDispatch, Event.registryOf,
        populateBeforeDispatch, List.countP_cons, List.countP_nil]
  | none =>
    cases cmd with
    | none =>
      refine ⟨?_, ?_, ?_⟩ <;>
        simp [mainRun, Event.isPopulate, Event.isDispatch, Event.registryOf,
          populateBeforeDispatch, List.countP_cons, List.countP_nil]
    | some c =>
      cases c with
      | chat a =>
        refine ⟨?_, ?_, ?_⟩ <;>
          simp [mainRun, Event.isPopulate, Event.isDispatch, Event.registryOf,
            populateBeforeDispatch, List.countP_cons, List.countP_nil]
      | list a =>
        refine ⟨?_, ?_, ?_⟩ <;>
          simp [mainRun, Event.isPopulate, Event.isDispatch, Event.registryOf,
            populateBeforeDispatch, List.countP_cons, List.countP_nil]

/-- C4 witness: in a concrete chat run the registry is populated
exactly once, before the dispatch, and the dispatch event hands the
consumer the registry populated from the configuration. -/
theorem registry_populated_once_w :
    (mainRun chat0 list0 env0 cliChat cfg0).1.countP Event.isPopulate = 1 ∧
    populateBeforeDispatch (mainRun chat0 list0 env0 cliChat cfg0).1 = true ∧
    ((Event.dispatchChat cfg0.editor cfg0.keybindings cfg0.default_model
        (populatedRegistry cfg0) chatOptsW).registryOf = none ∨
      (Event.dispatchChat cfg0.editor cfg0.keybindings cfg0.default_model
        (populatedRegistry cfg0) chatOptsW).registryOf =
          some (populatedRegistry cfg0)) :=
  ⟨(registry_populated_once chat0 list0 env0 cliChat cfg0).1,
   (registry_populated_once chat0 list0 env0 cliChat cfg0).2.1,
   (registry_populated_once chat0 list0 env0 cliChat cfg0).2.2 _ (by decide)⟩

/-- C9: an invocation with no subcommand behaves exactly as an
explicit chat subcommand with the default chat options, whose record
is no model override, interactive flag false, no initial prompt; the
editor, keybindings, default model and registry passed are the
same. -/
theorem default_chat_dispatch
    (chatCmd : Option String → KeyBindings → Option String → Registry →
      ChatOpts → Nat)
    (listCmd : Bool → Registry → ListArgs → Nat)
    (env : Env) (cli : Opts) (config : Config)
    (hg : cli.generator = none) (hc : cli.command = none) :
    mainRun chatCmd listCmd env cli config =
      mainRun chatCmd listCmd env
        { cli with command := some (Commands.chat ChatOpts.default) } config ∧
    ChatOpts.default = { model := none, interactive := false, prompt := none } := by
  refine ⟨?_, rfl⟩
  rcases cli with ⟨color, cfgPath, cmd, gen⟩
  simp only at hg hc
  subst hg
  subst hc
  simp [mainRun]

/-- C9 witness: the concrete invocation with no subcommand equals the
explicit chat invocation with default options. -/
theorem default_chat_dispatch_w :
    mainRun chat0 list0 env0 cliNone cfg0 =
      mainRun chat0 list0 env0
        { cliNone with command := some (Commands.chat ChatOpts.default) } cfg0 ∧
    ChatOpts.default = { model := none, interactive := false, prompt := none } :=
  default_chat_dispatch chat0 list0 env0 cliNone cfg0 rfl rfl

/-- C10: with the generator flag set, main still reads the
configuration and populates the registry before generating
completions, discards the results of directory creation and
completion generation (the run is the same for every environment
outcome), unconditionally prints the success message, exits with
status 0, and dispatches no subcommand. -/
theorem generator_short_circuit
    (chatCmd : Option String → KeyBindings → Option String → Registry →
      ChatOpts → Nat)
    (listCmd : Bool → Registry → ListArgs → Nat)
    (env : Env) (cli : Opts) (config : Config) (g : Shell)
    (hg : cli.generator = some g) :
    mainRun chatCmd listCmd env cli config =
      ([Event.configureColor (resolveAuto env.tty cli.color),
        Event.readConfig cli.config, Event.populateRegistry,
        Event.createCompletionsDir env.dirOk, Event.generateCompletions env.genOk,
        Event.printLine (completionsMessage g)], 0) ∧
    (mainRun chatCmd listCmd env cli config).1.countP Event.isDispatch = 0 ∧
    Event.printLine (completionsMessage g) ∈
      (mainRun chatCmd listCmd env cli config).1 := by
  have h1 : mainRun chatCmd listCmd env cli config =
      ([Event.configureColor (resolveAuto env.tty cli.color),
        Event.readConfig cli.config, Event.populateRegistry,
        Event.createCompletionsDir env.dirOk, Event.generateCompletions env.genOk,
        Event.printLine (completionsMessage g)], 0) := by
    simp [mainRun, hg]
  refine ⟨h1, ?_, ?_⟩
  · rw [h1]
    simp [Event.isDispatch, List.countP_cons, List.countP_nil]
  · rw [h1]
    simp

/-- C10 witness: a concrete generator invocation in an environment
where both filesystem calls fail still populates the registry, prints
the success message and exits 0 without dispatching. -/
theorem generator_short_circuit_w :
    mainRun chat0 list0 envFail cliGen cfg0 =
      ([Event.configureColor (resolveAuto envFail.tty cliGen.color),
        Event.readConfig cliGen.config, Event.populateRegistry,
        Event.createCompletionsDir envFail.dirOk,
        Event.generateCompletions envFail.genOk,
        Event.printLine (completionsMessage Shell.bash)], 0) :=
  (generator_short_circuit chat0 list0 envFail cliGen cfg0 Shell.bash rfl).1

